import Mathlib

/-
  Verification of the cache-fronted API aggregation client of the
  Groupie-Tracker repository (src/Projet/main.go).

  The Go client is shallowly embedded:
  * machine integers become Int (only compared for equality here);
  * response bodies become lists of byte values;
  * the Go map[string]cacheEntry and map[int]Relation become association
    lists with overwrite-on-insert semantics (mapInsert / mapLookup);
  * the network is an oracle (String → Nat → NetResult) giving, for a URL
    and the current instant, either a transport error or a response with
    a status code and a body read that may itself fail;
  * json.Unmarshal (external library code) is an oracle per target type,
    collected in Env; a decoder returning none models a JSON parse error;
  * time is an abstract Nat instant passed to each operation;
  * each operation returns its Go result, the updated client state and a
    trace of events recording fetchURL invocations and the network
    requests actually issued.
-/

namespace GroupieTracker

/-- Bytes of an HTTP response body, modelled as a list of byte values. -/
abbrev Bytes := List Nat

/-- Artist record (type Artist, src/Projet/main.go lines 23-33). -/
structure Artist where
  ID : Int
  Image : String
  Name : String
  Members : List String
  CreationDate : Int
  FirstAlbum : String
  Locations : String
  ConcertDates : String
  Relations : String
deriving DecidableEq

/-- LocationsData record (lines 35-39). -/
structure LocationsData where
  ID : Int
  Locations : List String
  DatesURL : String
deriving DecidableEq

/-- DatesData record (lines 45-48). -/
structure DatesData where
  ID : Int
  Dates : List String
deriving DecidableEq

/-- Relation record (lines 54-57): the Go map[string][]string becomes an
association list from location to dates. -/
structure Relation where
  ID : Int
  DatesLocations : List (String × List String)
deriving DecidableEq

/-- RelationIndex record (lines 59-61). -/
structure RelationIndex where
  Index : List Relation
deriving DecidableEq

/-- ArtistComplete (lines 63-68): embedded Artist plus the three enrichment
fields; Go zero values (nil slices / nil map) are the empty list. -/
structure ArtistComplete where
  Artist : Artist
  LocationsList : List String
  DatesList : List String
  DatesLocations : List (String × List String)
deriving DecidableEq

/-- cacheEntry (lines 84-87): raw bytes plus the instant they were stored. -/
structure CacheEntry where
  data : Bytes
  timestamp : Nat
deriving DecidableEq

/-- The client state (lines 77-82): the cache map and the TTL.  The HTTP
client itself is the network oracle, passed to each operation. -/
structure APIClient where
  cache : List (String × CacheEntry)
  cacheTTL : Nat
deriving DecidableEq

/-- NewAPIClient (lines 89-97): empty cache, 5-minute TTL (modelled in
seconds: 300). -/
def NewAPIClient : APIClient := { cache := [], cacheTTL := 300 }

/-- Lookup in a Go-style map modelled as an association list. -/
def mapLookup {α β : Type} [DecidableEq α] : List (α × β) → α → Option β
  | [], _ => none
  | (k', v) :: rest, k => if k' = k then some v else mapLookup rest k

/-- Insert/overwrite in a Go-style map modelled as an association list. -/
def mapInsert {α β : Type} [DecidableEq α] : List (α × β) → α → β → List (α × β)
  | [], k, v => [(k, v)]
  | (k', v') :: rest, k, v =>
      if k' = k then (k, v) :: rest else (k', v') :: mapInsert rest k v

/-- Endpoint constants (lines 15-21). -/
def BaseAPIURL : String := "https://groupietrackers.herokuapp.com/api"

/-- Artists endpoint (line 17). -/
def ArtistsEndpoint : String := BaseAPIURL ++ "/artists"

/-- Locations endpoint (line 18). -/
def LocationsEndpoint : String := BaseAPIURL ++ "/locations"

/-- Dates endpoint (line 19). -/
def DatesEndpoint : String := BaseAPIURL ++ "/dates"

/-- Relation endpoint (line 20). -/
def RelationEndpoint : String := BaseAPIURL ++ "/relation"

/-- Outcome of one HTTP GET against the network oracle: either the
transport fails outright, or a response arrives carrying a status code and
a body whose read may itself fail (io.ReadAll error). -/
inductive NetResult where
  | err : NetResult
  | resp (statusCode : Nat) (body : Except Unit Bytes) : NetResult

/-- The three failure paths of fetchURL (lines 109-122), kept distinct as
in the Go error messages. -/
inductive FetchError where
  | httpError : FetchError
  | statusError (code : Nat) : FetchError
  | readError : FetchError
deriving DecidableEq

/-- Trace events: a fetchURL invocation for a URL, and a network request
actually issued for a URL. -/
inductive Event where
  | fetchCall (url : String) : Event
  | netRequest (url : String) : Event
deriving DecidableEq

/-- True exactly on fetchCall events. -/
def Event.isFetchCall : Event → Bool
  | Event.fetchCall _ => true
  | Event.netRequest _ => false

/-- True exactly on netRequest events. -/
def Event.isNetRequest : Event → Bool
  | Event.fetchCall _ => false
  | Event.netRequest _ => true

/-- Number of network requests recorded in a trace. -/
def countNetRequests (tr : List Event) : Nat :=
  (tr.filter Event.isNetRequest).length

/-- The cache-miss path of fetchURL (lines 109-131): issue the HTTP GET,
require status 200, read the body, store it with the current instant. -/
def fetchNetwork (net : String → Nat → NetResult) (now : Nat) (c : APIClient)
    (url : String) : Except FetchError Bytes × APIClient × List Event :=
  match net url now with
  | NetResult.err =>
      (Except.error FetchError.httpError, c,
       [Event.fetchCall url, Event.netRequest url])
  | NetResult.resp statusCode body =>
      if statusCode ≠ 200 then
        (Except.error (FetchError.statusError statusCode), c,
         [Event.fetchCall url, Event.netRequest url])
      else
        match body with
        | Except.error _ =>
            (Except.error FetchError.readError, c,
             [Event.fetchCall url, Event.netRequest url])
        | Except.ok b =>
            (Except.ok b,
             { c with cache := mapInsert c.cache url { data := b, timestamp := now } },
             [Event.fetchCall url, Event.netRequest url])

/-- fetchURL (lines 99-132): serve a cached entry younger than the TTL,
otherwise fall through to the network path. -/
def fetchURL (net : String → Nat → NetResult) (now : Nat) (c : APIClient)
    (url : String) : Except FetchError Bytes × APIClient × List Event :=
  match mapLookup c.cache url with
  | some entry =>
      if now - entry.timestamp < c.cacheTTL then
        (Except.ok entry.data, c, [Event.fetchCall url])
      else
        fetchNetwork net now c url
  | none => fetchNetwork net now c url

/-- Failures of a retrieval operation: a fetchURL failure propagated as-is,
or a JSON parse failure ("erreur parsing JSON"). -/
inductive GetError where
  | fetch (e : FetchError) : GetError
  | jsonError : GetError
deriving DecidableEq

/-- The environment of the client: the network oracle and one JSON-decoding
oracle per target type (json.Unmarshal is external library code; a decoder
returning none models a parse error). -/
structure Env where
  net : String → Nat → NetResult
  decodeArtists : Bytes → Option (List Artist)
  decodeArtist : Bytes → Option Artist
  decodeLocationsData : Bytes → Option LocationsData
  decodeDatesData : Bytes → Option DatesData
  decodeRelation : Bytes → Option Relation
  decodeRelationIndex : Bytes → Option RelationIndex

/-- GetArtists (lines 134-146). -/
def GetArtists (env : Env) (now : Nat) (c : APIClient) :
    Except GetError (List Artist) × APIClient × List Event :=
  match (fetchURL env.net now c ArtistsEndpoint).1 with
  | Except.error e =>
      (Except.error (GetError.fetch e),
       (fetchURL env.net now c ArtistsEndpoint).2.1,
       (fetchURL env.net now c ArtistsEndpoint).2.2)
  | Except.ok data =>
      match env.decodeArtists data with
      | none =>
          (Except.error GetError.jsonError,
           (fetchURL env.net now c ArtistsEndpoint).2.1,
           (fetchURL env.net now c ArtistsEndpoint).2.2)
      | some artists =>
          (Except.ok artists,
           (fetchURL env.net now c ArtistsEndpoint).2.1,
           (fetchURL env.net now c ArtistsEndpoint).2.2)

/-- GetArtistByID (lines 148-161): fetch ArtistsEndpoint/<id>. -/
def GetArtistByID (env : Env) (now : Nat) (c : APIClient) (id : Int) :
    Except GetError Artist × APIClient × List Event :=
  match (fetchURL env.net now c (ArtistsEndpoint ++ "/" ++ toString id)).1 with
  | Except.error e =>
      (Except.error (GetError.fetch e),
       (fetchURL env.net now c (ArtistsEndpoint ++ "/" ++ toString id)).2.1,
       (fetchURL env.net now c (ArtistsEndpoint ++ "/" ++ toString id)).2.2)
  | Except.ok data =>
      match env.decodeArtist data with
      | none =>
          (Except.error GetError.jsonError,
           (fetchURL env.net now c (ArtistsEndpoint ++ "/" ++ toString id)).2.1,
           (fetchURL env.net now c (ArtistsEndpoint ++ "/" ++ toString id)).2.2)
      | some artist =>
          (Except.ok artist,
           (fetchURL env.net now c (ArtistsEndpoint ++ "/" ++ toString id)).2.1,
           (fetchURL env.net now c (ArtistsEndpoint ++ "/" ++ toString id)).2.2)

/-- GetLocationsByArtistID (lines 177-190). -/
def GetLocationsByArtistID (env : Env) (now : Nat) (c : APIClient) (id : Int) :
    Except GetError LocationsData × APIClient × List Event :=
  match (fetchURL env.net now c (LocationsEndpoint ++ "/" ++ toString id)).1 with
  | Except.error e =>
      (Except.error (GetError.fetch e),
       (fetchURL env.net now c (LocationsEndpoint ++ "/" ++ toString id)).2.1,
       (fetchURL env.net now c (LocationsEndpoint ++ "/" ++ toString id)).2.2)
  | Except.ok data =>
      match env.decodeLocationsData data with
      | none =>
          (Except.error GetError.jsonError,
           (fetchURL env.net now c (LocationsEndpoint ++ "/" ++ toString id)).2.1,
           (fetchURL env.net now c (LocationsEndpoint ++ "/" ++ toString id)).2.2)
      | some locations =>
          (Except.ok locations,
           (fetchURL env.net now c (LocationsEndpoint ++ "/" ++ toString id)).2.1,
           (fetchURL env.net now c (LocationsEndpoint ++ "/" ++ toString id)).2.2)

/-- GetDatesByArtistID (lines 206-219). -/
def GetDatesByArtistID (env : Env) (now : Nat) (c : APIClient) (id : Int) :
    Except GetError DatesData × APIClient × List Event :=
  match (fetchURL env.net now c (DatesEndpoint ++ "/" ++ toString id)).1 with
  | Except.error e =>
      (Except.error (GetError.fetch e),
       (fetchURL env.net now c (DatesEndpoint ++ "/" ++ toString id)).2.1,
       (fetchURL env.net now c (DatesEndpoint ++ "/" ++ toString id)).2.2)
  | Except.ok data =>
      match env.decodeDatesData data with
      | none =>
          (Except.error GetError.jsonError,
           (fetchURL env.net now c (DatesEndpoint ++ "/" ++ toString id)).2.1,
           (fetchURL env.net now c (DatesEndpoint ++ "/" ++ toString id)).2.2)
      | some dates =>
          (Except.ok dates,
           (fetchURL env.net now c (DatesEndpoint ++ "/" ++ toString id)).2.1,
           (fetchURL env.net now c (DatesEndpoint ++ "/" ++ toString id)).2.2)

/-- GetRelations (lines 221-233). -/
def GetRelations (env : Env) (now : Nat) (c : APIClient) :
    Except GetError RelationIndex × APIClient × List Event :=
  match (fetchURL env.net now c RelationEndpoint).1 with
  | Except.error e =>
      (Except.error (GetError.fetch e),
       (fetchURL env.net now c RelationEndpoint).2.1,
       (fetchURL env.net now c RelationEndpoint).2.2)
  | Except.ok data =>
      match env.decodeRelationIndex data with
      | none =>
          (Except.error GetError.jsonError,
           (fetchURL env.net now c RelationEndpoint).2.1,
           (fetchURL env.net now c RelationEndpoint).2.2)
      | some relations =>
          (Except.ok relations,
           (fetchURL env.net now c RelationEndpoint).2.1,
           (fetchURL env.net now c RelationEndpoint).2.2)

/-- GetRelationByArtistID (lines 235-248). -/
def GetRelationByArtistID (env : Env) (now : Nat) (c : APIClient) (id : Int) :
    Except GetError Relation × APIClient × List Event :=
  match (fetchURL env.net now c (RelationEndpoint ++ "/" ++ toString id)).1 with
  | Except.error e =>
      (Except.error (GetError.fetch e),
       (fetchURL env.net now c (RelationEndpoint ++ "/" ++ toString id)).2.1,
       (fetchURL env.net now c (RelationEndpoint ++ "/" ++ toString id)).2.2)
  | Except.ok data =>
      match env.decodeRelation data with
      | none =>
          (Except.error GetError.jsonError,
           (fetchURL env.net now c (RelationEndpoint ++ "/" ++ toString id)).2.1,
           (fetchURL env.net now c (RelationEndpoint ++ "/" ++ toString id)).2.2)
      | some relation =>
          (Except.ok relation,
           (fetchURL env.net now c (RelationEndpoint ++ "/" ++ toString id)).2.1,
           (fetchURL env.net now c (RelationEndpoint ++ "/" ++ toString id)).2.2)

/-- Client state after the base-artist fetch of GetArtistComplete. -/
def afterBase (env : Env) (now : Nat) (c : APIClient) (id : Int) : APIClient :=
  (GetArtistByID env now c id).2.1

/-- Client state after the locations fetch of GetArtistComplete. -/
def afterLocations (env : Env) (now : Nat) (c : APIClient) (id : Int) : APIClient :=
  (GetLocationsByArtistID env now (afterBase env now c id) id).2.1

/-- Client state after the dates fetch of GetArtistComplete. -/
def afterDates (env : Env) (now : Nat) (c : APIClient) (id : Int) : APIClient :=
  (GetDatesByArtistID env now (afterLocations env now c id) id).2.1

/-- GetArtistComplete (lines 250-276): the base fetch is fatal on failure;
the three enrichment fetches are best-effort, each setting only its own
field when it succeeds and leaving the zero value when it fails. -/
def GetArtistComplete (env : Env) (now : Nat) (c : APIClient) (id : Int) :
    Except GetError ArtistComplete × APIClient × List Event :=
  match (GetArtistByID env now c id).1 with
  | Except.error e =>
      (Except.error e, (GetArtistByID env now c id).2.1, (GetArtistByID env now c id).2.2)
  | Except.ok artist =>
      (Except.ok
        { Artist := artist,
          LocationsList :=
            (match (GetLocationsByArtistID env now (afterBase env now c id) id).1 with
             | Except.ok locations => locations.Locations
             | Except.error _ => []),
          DatesList :=
            (match (GetDatesByArtistID env now (afterLocations env now c id) id).1 with
             | Except.ok dates => dates.Dates
             | Except.error _ => []),
          DatesLocations :=
            (match (GetRelationByArtistID env now (afterDates env now c id) id).1 with
             | Except.ok relation => relation.DatesLocations
             | Except.error _ => []) },
       (GetRelationByArtistID env now (afterDates env now c id) id).2.1,
       (GetArtistByID env now c id).2.2
         ++ (GetLocationsByArtistID env now (afterBase env now c id) id).2.2
         ++ (GetDatesByArtistID env now (afterLocations env now c id) id).2.2
         ++ (GetRelationByArtistID env now (afterDates env now c id) id).2.2)

/-- GetAllArtistsComplete (lines 278-305): fetch the artist index and the
relation index, build the id → Relation map (insert order, last wins),
produce one ArtistComplete per artist in order, attaching only the
DatesLocations of the matching relation when it exists. -/
def GetAllArtistsComplete (env : Env) (now : Nat) (c : APIClient) :
    Except GetError (List ArtistComplete) × APIClient × List Event :=
  match (GetArtists env now c).1 with
  | Except.error e =>
      (Except.error e, (GetArtists env now c).2.1, (GetArtists env now c).2.2)
  | Except.ok artists =>
      match (GetRelations env now (GetArtists env now c).2.1).1 with
      | Except.error e =>
          (Except.error e,
           (GetRelations env now (GetArtists env now c).2.1).2.1,
           (GetArtists env now c).2.2
             ++ (GetRelations env now (GetArtists env now c).2.1).2.2)
      | Except.ok relations =>
          (Except.ok (artists.map (fun artist =>
             match mapLookup
                 (relations.Index.foldl (fun m r => mapInsert m r.ID r) [])
                 artist.ID with
             | some relation =>
                 { Artist := artist, LocationsList := [], DatesList := [],
                   DatesLocations := relation.DatesLocations }
             | none =>
                 { Artist := artist, LocationsList := [], DatesList := [],
                   DatesLocations := [] })),
           (GetRelations env now (GetArtists env now c).2.1).2.1,
           (GetArtists env now c).2.2
             ++ (GetRelations env now (GetArtists env now c).2.1).2.2)

/-- ClearCache (lines 307-311): drop every cache entry. -/
def ClearCache (c : APIClient) : APIClient := { c with cache := [] }

/-- The last relation of the list whose ID matches, written as the fold the
id → Relation map construction performs. -/
def lastMatch (rs : List Relation) (id : Int) : Option Relation :=
  rs.foldl (fun acc r => if r.ID = id then some r else acc) none

/-- The spec's failure taxonomy (spec.md §7): transport failure, upstream
non-success status, malformed JSON. -/
inductive FailureReason where
  | transport : FailureReason
  | badStatus : FailureReason
  | malformed : FailureReason
deriving DecidableEq

/-- Classification of a retrieval failure into the spec's three reasons:
the transport class covers both the HTTP-GET failure and the body-read
failure (spec.md §7 lists network unreachable / DNS / timeout there), the
non-success status is its own class, and a JSON parse failure is its own
class. -/
def GetError.reason : GetError → FailureReason
  | GetError.fetch FetchError.httpError => FailureReason.transport
  | GetError.fetch (FetchError.statusError _) => FailureReason.badStatus
  | GetError.fetch FetchError.readError => FailureReason.transport
  | GetError.jsonError => FailureReason.malformed

/-- Concrete artist for the witnesses (the spec's Queen example). -/
def artistQueen : Artist :=
  { ID := 1, Image := "", Name := "Queen", Members := [], CreationDate := 1970,
    FirstAlbum := "", Locations := "", ConcertDates := "", Relations := "" }

/-- Concrete artist for the witnesses (the spec's SOJA example). -/
def artistSOJA : Artist :=
  { ID := 2, Image := "", Name := "SOJA", Members := [], CreationDate := 1997,
    FirstAlbum := "", Locations := "", ConcertDates := "", Relations := "" }

/-- Concrete relation for the witnesses (the spec's example mapping). -/
def relQueen : Relation :=
  { ID := 1, DatesLocations := [("london", ["2020-01-01"])] }

/-- First of two relations sharing an ID, for the duplicate-id witness. -/
def relDupA : Relation :=
  { ID := 1, DatesLocations := [("paris", ["2019-05-05"])] }

/-- Second of two relations sharing an ID, for the duplicate-id witness. -/
def relDupB : Relation :=
  { ID := 1, DatesLocations := [("berlin", ["2022-07-07"])] }

/-- Network oracle answering every request with status 200 and body [0]. -/
def netOK : String → Nat → NetResult :=
  fun _ _ => NetResult.resp 200 (Except.ok [0])

/-- Network oracle failing every request at the transport level. -/
def netErr : String → Nat → NetResult :=
  fun _ _ => NetResult.err

/-- Environment realising the spec's §8 example: the artist index decodes
to Queen and SOJA, the relation index decodes to the single Queen
relation. -/
def envDemo : Env :=
  { net := netOK,
    decodeArtists := fun _ => some [artistQueen, artistSOJA],
    decodeArtist := fun _ => some artistQueen,
    decodeLocationsData := fun _ => some { ID := 1, Locations := ["london"], DatesURL := "" },
    decodeDatesData := fun _ => some { ID := 1, Dates := ["2020-01-01"] },
    decodeRelation := fun _ => some relQueen,
    decodeRelationIndex := fun _ => some { Index := [relQueen] } }

/-- Environment whose network always fails at the transport level. -/
def envErr : Env :=
  { net := netErr,
    decodeArtists := fun _ => none,
    decodeArtist := fun _ => none,
    decodeLocationsData := fun _ => none,
    decodeDatesData := fun _ => none,
    decodeRelation := fun _ => none,
    decodeRelationIndex := fun _ => none }

/-- Environment where the per-id relation endpoint for artist 2 answers
404 (no relation exists upstream for that id) while everything else
succeeds, and the relation index contains only the Queen relation. -/
def envNoRel : Env :=
  { net := fun url _ =>
      if url = RelationEndpoint ++ "/2" then NetResult.resp 404 (Except.ok [])
      else NetResult.resp 200 (Except.ok [0]),
    decodeArtists := fun _ => some [artistQueen, artistSOJA],
    decodeArtist := fun _ => some artistSOJA,
    decodeLocationsData := fun _ => some { ID := 2, Locations := ["paris"], DatesURL := "" },
    decodeDatesData := fun _ => some { ID := 2, Dates := ["2021-02-02"] },
    decodeRelation := fun _ => some relQueen,
    decodeRelationIndex := fun _ => some { Index := [relQueen] } }

/-- Environment whose relation index holds two relations with the same ID,
for the duplicate-id witness. -/
def envDup : Env :=
  { net := netOK,
    decodeArtists := fun _ => some [artistQueen],
    decodeArtist := fun _ => some artistQueen,
    decodeLocationsData := fun _ => none,
    decodeDatesData := fun _ => none,
    decodeRelation := fun _ => none,
    decodeRelationIndex := fun _ => some { Index := [relDupA, relDupB] } }

/-- A client holding a still-fresh cache entry for URL "u" stored at
instant 0 (a call at instant 1 is a cache hit). -/
def clientHit : APIClient :=
  { cache := [("u", { data := [7], timestamp := 0 })], cacheTTL := 300 }

/-- A client holding an expired cache entry for the artists endpoint,
stored at instant 0 with TTL 300 (a call at instant 1000 must refetch). -/
def clientStale : APIClient :=
  { cache := [(ArtistsEndpoint, { data := [7], timestamp := 0 })], cacheTTL := 300 }

/-- Lookup after insert: the inserted key reads back the new value, every
other key is unaffected. -/
theorem mapLookup_insert {α β : Type} [DecidableEq α] (m : List (α × β)) (k k' : α) (v : β) :
    mapLookup (mapInsert m k v) k' = if k = k' then some v else mapLookup m k' := by
  induction m with
  | nil =>
      by_cases h : k = k' <;> simp [mapInsert, mapLookup, h]
  | cons p rest ih =>
      obtain ⟨a, b⟩ := p
      by_cases hak : a = k
      · subst hak
        by_cases h : a = k' <;> simp [mapInsert, mapLookup, h]
      · rcases eq_or_ne k k' with h | h
        · subst h
          simp [mapInsert, mapLookup, hak, ih]
        · simp [mapInsert, mapLookup, hak, h, ih]

/-- Lookup of the freshly-inserted key. -/
theorem mapLookup_insert_self {α β : Type} [DecidableEq α] (m : List (α × β)) (k : α) (v : β) :
    mapLookup (mapInsert m k v) k = some v := by
  rw [mapLookup_insert]
  simp

/-- The last-match fold, run from an arbitrary accumulator. -/
theorem lastMatch_acc (rs : List Relation) (id : Int) (acc : Option Relation) :
    rs.foldl (fun a r => if r.ID = id then some r else a) acc =
      match lastMatch rs id with
      | some r => some r
      | none => acc := by
  induction rs generalizing acc with
  | nil => simp [lastMatch]
  | cons r rest ih =>
      rw [List.foldl_cons, ih]
      have h2 : lastMatch (r :: rest) id =
          match lastMatch rest id with
          | some x => some x
          | none => if r.ID = id then some r else none := by
        unfold lastMatch
        rw [List.foldl_cons, ih]
        rfl
      rw [h2]
      cases lastMatch rest id with
      | some x => rfl
      | none => by_cases h : r.ID = id <;> simp [h]

/-- Unfolding the last-match fold one step from the head. -/
theorem lastMatch_cons (a : Relation) (rest : List Relation) (id : Int) :
    lastMatch (a :: rest) id =
      match lastMatch rest id with
      | some x => some x
      | none => if a.ID = id then some a else none := by
  unfold lastMatch
  rw [List.foldl_cons, lastMatch_acc]
  rfl

/-- The relationsMap fold of GetAllArtistsComplete looks up to the last
matching relation, falling back to the initial map. -/
theorem lookup_relFold (rs : List Relation) (m0 : List (Int × Relation)) (id : Int) :
    mapLookup (rs.foldl (fun m r => mapInsert m r.ID r) m0) id =
      match lastMatch rs id with
      | some r => some r
      | none => mapLookup m0 id := by
  induction rs generalizing m0 with
  | nil => simp [lastMatch]
  | cons r rest ih =>
      rw [List.foldl_cons, ih, lastMatch_cons]
      cases lastMatch rest id with
      | some x => rfl
      | none =>
          rw [mapLookup_insert]
          by_cases h : r.ID = id <;> simp [h]

/-- The relationsMap built from the empty map resolves exactly to the last
matching relation. -/
theorem lookup_relFold_nil (rs : List Relation) (id : Int) :
    mapLookup (rs.foldl (fun m r => mapInsert m r.ID r) []) id = lastMatch rs id := by
  rw [lookup_relFold]
  cases lastMatch rs id <;> simp [mapLookup]

/-- A last match is a member of the list and matches the id. -/
theorem lastMatch_mem (rs : List Relation) (id : Int) (r : Relation)
    (h : lastMatch rs id = some r) : r ∈ rs ∧ r.ID = id := by
  induction rs with
  | nil => simp [lastMatch] at h
  | cons a rest ih =>
      rw [lastMatch_cons] at h
      cases hr : lastMatch rest id with
      | some x =>
          rw [hr] at h
          simp at h
          subst h
          rcases ih hr with ⟨hm, hid⟩
          exact ⟨List.mem_cons_of_mem _ hm, hid⟩
      | none =>
          rw [hr] at h
          by_cases hid : a.ID = id
          · simp [hid] at h
            subst h
            exact ⟨List.mem_cons_self _ _, hid⟩
          · simp [hid] at h

/-- No last match means no member of the list matches the id. -/
theorem lastMatch_none (rs : List Relation) (id : Int)
    (h : lastMatch rs id = none) : ∀ r ∈ rs, r.ID ≠ id := by
  induction rs with
  | nil => intro r hr; simp at hr
  | cons a rest ih =>
      rw [lastMatch_cons] at h
      cases hr : lastMatch rest id with
      | some x => rw [hr] at h; simp at h
      | none =>
          rw [hr] at h
          by_cases hid : a.ID = id
          · simp [hid] at h
          · intro r hmem
            rcases List.mem_cons.mp hmem with rfl | hmem2
            · exact hid
            · exact ih hr r hmem2

/-- find? distributes over append, preferring the left list. -/
theorem find?_append_split {α : Type} (p : α → Bool) (l1 l2 : List α) :
    (l1 ++ l2).find? p =
      match l1.find? p with
      | some x => some x
      | none => l2.find? p := by
  induction l1 with
  | nil => rfl
  | cons a rest ih =>
      cases h : p a with
      | true => simp [List.find?, h]
      | false => simp [List.find?, h, ih]

/-- The last matching relation is the first match of the reversed list. -/
theorem lastMatch_eq_find_rev (rs : List Relation) (id : Int) :
    lastMatch rs id = rs.reverse.find? (fun r => decide (r.ID = id)) := by
  induction rs with
  | nil => rfl
  | cons a rest ih =>
      rw [lastMatch_cons, ih, List.reverse_cons, find?_append_split]
      cases rest.reverse.find? (fun r => decide (r.ID = id)) with
      | some x => rfl
      | none => by_cases h : a.ID = id <;> simp [List.find?, h]

/-- Pointwise description of indexing into a mapped list. -/
theorem get_map_aux {α β : Type} (f : α → β) (l : List α) (i : Nat)
    (hi : i < (l.map f).length) (hi' : i < l.length) :
    (l.map f).get ⟨i, hi⟩ = f (l.get ⟨i, hi'⟩) := by
  simp [List.get_eq_getElem, List.getElem_map]

/-- The network path always records the fetch call and the network
request, in that order. -/
theorem fetchNetwork_trace (net : String → Nat → NetResult) (now : Nat)
    (c : APIClient) (url : String) :
    (fetchNetwork net now c url).2.2 = [Event.fetchCall url, Event.netRequest url] := by
  unfold fetchNetwork
  cases net url now with
  | err => rfl
  | resp statusCode body =>
      by_cases h : statusCode ≠ 200
      · simp [h]
      · cases body <;> simp [h]

/-- A successful network path stores exactly the returned body under the
URL, stamped with the current instant. -/
theorem fetchNetwork_ok (net : String → Nat → NetResult) (now : Nat)
    (c : APIClient) (url : String) (b : Bytes)
    (h : (fetchNetwork net now c url).1 = Except.ok b) :
    (fetchNetwork net now c url).2.1.cache =
      mapInsert c.cache url { data := b, timestamp := now } := by
  unfold fetchNetwork at h ⊢
  cases hn : net url now with
  | err => rw [hn] at h; simp at h
  | resp statusCode body =>
      rw [hn] at h
      by_cases hc : statusCode ≠ 200
      · simp [hc] at h
      · cases body with
        | error u => simp [hc] at h
        | ok b2 =>
            simp [hc] at h ⊢
            rw [h]

/-- A failing network path leaves the client state untouched. -/
theorem fetchNetwork_error_state (net : String → Nat → NetResult) (now : Nat)
    (c : APIClient) (url : String) (e : FetchError)
    (h : (fetchNetwork net now c url).1 = Except.error e) :
    (fetchNetwork net now c url).2.1 = c := by
  unfold fetchNetwork at h ⊢
  cases hn : net url now with
  | err => rfl
  | resp statusCode body =>
      rw [hn] at h
      by_cases hc : statusCode ≠ 200
      · simp [hc]
      · cases body with
        | error u => simp [hc]
        | ok b2 => simp [hc] at h

/-- fetchURL either serves a fresh cache entry verbatim or behaves exactly
as the network path. -/
theorem fetchURL_cases (net : String → Nat → NetResult) (now : Nat)
    (c : APIClient) (url : String) :
    (∃ entry, mapLookup c.cache url = some entry ∧
       now - entry.timestamp < c.cacheTTL ∧
       fetchURL net now c url = (Except.ok entry.data, c, [Event.fetchCall url])) ∨
    fetchURL net now c url = fetchNetwork net now c url := by
  unfold fetchURL
  cases hl : mapLookup c.cache url with
  | none => exact Or.inr rfl
  | some entry =>
      by_cases h : now - entry.timestamp < c.cacheTTL
      · exact Or.inl ⟨entry, rfl, h, by simp [h]⟩
      · exact Or.inr (by simp [h])

/-- A fresh cache entry is served verbatim, with no network request. -/
theorem fetchURL_hit (net : String → Nat → NetResult) (now : Nat)
    (c : APIClient) (url : String) (entry : CacheEntry)
    (hl : mapLookup c.cache url = some entry)
    (hf : now - entry.timestamp < c.cacheTTL) :
    fetchURL net now c url = (Except.ok entry.data, c, [Event.fetchCall url]) := by
  unfold fetchURL
  rw [hl]
  simp [hf]

/-- An expired cache entry leads straight to the network path. -/
theorem fetchURL_expired (net : String → Nat → NetResult) (now : Nat)
    (c : APIClient) (url : String) (entry : CacheEntry)
    (hl : mapLookup c.cache url = some entry)
    (hf : ¬ now - entry.timestamp < c.cacheTTL) :
    fetchURL net now c url = fetchNetwork net now c url := by
  unfold fetchURL
  rw [hl]
  simp [hf]

/-- Every fetchURL trace is a lone fetch call or a fetch call followed by
one network request. -/
theorem fetchURL_trace (net : String → Nat → NetResult) (now : Nat)
    (c : APIClient) (url : String) :
    (fetchURL net now c url).2.2 = [Event.fetchCall url] ∨
    (fetchURL net now c url).2.2 = [Event.fetchCall url, Event.netRequest url] := by
  rcases fetchURL_cases net now c url with ⟨entry, _, _, heq⟩ | heq
  · rw [heq]
    exact Or.inl rfl
  · rw [heq]
    exact Or.inr (fetchNetwork_trace net now c url)

/-- Every fetchURL invocation records exactly one fetch call. -/
theorem fetchURL_filter (net : String → Nat → NetResult) (now : Nat)
    (c : APIClient) (url : String) :
    ((fetchURL net now c url).2.2).filter Event.isFetchCall = [Event.fetchCall url] := by
  rcases fetchURL_trace net now c url with h | h <;> rw [h] <;> rfl

/-- Every fetchURL invocation issues at most one network request. -/
theorem fetchURL_netcount (net : String → Nat → NetResult) (now : Nat)
    (c : APIClient) (url : String) :
    countNetRequests (fetchURL net now c url).2.2 ≤ 1 := by
  rcases fetchURL_trace net now c url with h | h <;>
    simp [countNetRequests, h, List.filter, Event.isNetRequest, Event.isFetchCall]

/-- After a successful fetchURL, the resulting cache holds an entry for
the URL whose data is exactly the returned bytes. -/
theorem fetchURL_ok_lookup (net : String → Nat → NetResult) (now : Nat)
    (c : APIClient) (url : String) (b : Bytes)
    (h : (fetchURL net now c url).1 = Except.ok b) :
    ∃ entry, mapLookup (fetchURL net now c url).2.1.cache url = some entry ∧
      entry.data = b := by
  rcases fetchURL_cases net now c url with ⟨entry, hl, _, heq⟩ | heq
  · rw [heq] at h ⊢
    refine ⟨entry, hl, ?_⟩
    simpa using h
  · rw [heq] at h ⊢
    rw [fetchNetwork_ok net now c url b h, mapLookup_insert_self]
    exact ⟨_, rfl, rfl⟩

/-- The GetArtists trace is exactly its fetchURL trace. -/
theorem GetArtists_trace (env : Env) (now : Nat) (c : APIClient) :
    (GetArtists env now c).2.2 = (fetchURL env.net now c ArtistsEndpoint).2.2 := by
  unfold GetArtists
  cases (fetchURL env.net now c ArtistsEndpoint).1 with
  | error e => rfl
  | ok data =>
      simp only []
      cases env.decodeArtists data <;> rfl

/-- The GetRelations trace is exactly its fetchURL trace. -/
theorem GetRelations_trace (env : Env) (now : Nat) (c : APIClient) :
    (GetRelations env now c).2.2 = (fetchURL env.net now c RelationEndpoint).2.2 := by
  unfold GetRelations
  cases (fetchURL env.net now c RelationEndpoint).1 with
  | error e => rfl
  | ok data =>
      simp only []
      cases env.decodeRelationIndex data <;> rfl

/-- Full description of GetAllArtistsComplete when both index fetches
succeed: result list, final state and trace. -/
theorem getAllArtistsComplete_eq (env : Env) (now : Nat) (c : APIClient)
    (artists : List Artist) (rels : RelationIndex)
    (ha : (GetArtists env now c).1 = Except.ok artists)
    (hr : (GetRelations env now (GetArtists env now c).2.1).1 = Except.ok rels) :
    GetAllArtistsComplete env now c =
      (Except.ok (artists.map (fun artist =>
         match lastMatch rels.Index artist.ID with
         | some relation =>
             { Artist := artist, LocationsList := [], DatesList := [],
               DatesLocations := relation.DatesLocations }
         | none =>
             { Artist := artist, LocationsList := [], DatesList := [],
               DatesLocations := [] })),
       (GetRelations env now (GetArtists env now c).2.1).2.1,
       (GetArtists env now c).2.2
         ++ (GetRelations env now (GetArtists env now c).2.1).2.2) := by
  unfold GetAllArtistsComplete
  rw [ha]
  simp only []
  rw [hr]
  simp only [lookup_relFold_nil]

/-- When both index fetches succeed, GetAllArtistsComplete performs
exactly two fetchURL invocations: the artists endpoint then the relation
endpoint. -/
theorem getAllArtistsComplete_fetchCalls (env : Env) (now : Nat) (c : APIClient)
    (artists : List Artist) (rels : RelationIndex)
    (ha : (GetArtists env now c).1 = Except.ok artists)
    (hr : (GetRelations env now (GetArtists env now c).2.1).1 = Except.ok rels) :
    (GetAllArtistsComplete env now c).2.2.filter Event.isFetchCall =
      [Event.fetchCall ArtistsEndpoint, Event.fetchCall RelationEndpoint] := by
  rw [getAllArtistsComplete_eq env now c artists rels ha hr]
  show ((GetArtists env now c).2.2
      ++ (GetRelations env now (GetArtists env now c).2.1).2.2).filter Event.isFetchCall = _
  rw [List.filter_append, GetArtists_trace, GetRelations_trace,
    fetchURL_filter, fetchURL_filter]
  rfl

/-- Full description of the result of GetArtistComplete when the base
fetch succeeds: each enrichment field is its own sub-fetch's payload when
that sub-fetch succeeds and the zero value when it fails. -/
theorem getArtistComplete_eq (env : Env) (now : Nat) (c : APIClient) (id : Int)
    (artist : Artist) (hb : (GetArtistByID env now c id).1 = Except.ok artist) :
    (GetArtistComplete env now c id).1 = Except.ok
      { Artist := artist,
        LocationsList :=
          (match (GetLocationsByArtistID env now (afterBase env now c id) id).1 with
           | Except.ok locations => locations.Locations
           | Except.error _ => []),
        DatesList :=
          (match (GetDatesByArtistID env now (afterLocations env now c id) id).1 with
           | Except.ok dates => dates.Dates
           | Except.error _ => []),
        DatesLocations :=
          (match (GetRelationByArtistID env now (afterDates env now c id) id).1 with
           | Except.ok relation => relation.DatesLocations
           | Except.error _ => []) } := by
  unfold GetArtistComplete
  rw [hb]

/-- C1: whenever the artist-index fetch and the relation-index fetch both
succeed, GetAllArtistsComplete returns exactly one ArtistComplete per
artist of the artist index, in the same order, attaching a matching
relation's date-location mapping to each artist whose id has a matching
Relation and leaving it empty otherwise, and it performs exactly two
upstream fetches (artists endpoint then relation endpoint) regardless of
the number of artists. -/
theorem getAllArtistsComplete_per_artist_join
    (env : Env) (now : Nat) (c : APIClient)
    (artists : List Artist) (rels : RelationIndex)
    (ha : (GetArtists env now c).1 = Except.ok artists)
    (hr : (GetRelations env now (GetArtists env now c).2.1).1 = Except.ok rels) :
    ∃ l, (GetAllArtistsComplete env now c).1 = Except.ok l ∧
      l.length = artists.length ∧
      (∀ i (hi : i < l.length) (hi' : i < artists.length),
        (l.get ⟨i, hi⟩).Artist = artists.get ⟨i, hi'⟩ ∧
        ((∃ r ∈ rels.Index, r.ID = (artists.get ⟨i, hi'⟩).ID ∧
            (l.get ⟨i, hi⟩).DatesLocations = r.DatesLocations) ∨
         ((∀ r ∈ rels.Index, r.ID ≠ (artists.get ⟨i, hi'⟩).ID) ∧
            (l.get ⟨i, hi⟩).DatesLocations = []))) ∧
      (GetAllArtistsComplete env now c).2.2.filter Event.isFetchCall =
        [Event.fetchCall ArtistsEndpoint, Event.fetchCall RelationEndpoint] := by
  have heq := getAllArtistsComplete_eq env now c artists rels ha hr
  refine ⟨artists.map (fun artist =>
      match lastMatch rels.Index artist.ID with
      | some relation =>
          { Artist := artist, LocationsList := [], DatesList := [],
            DatesLocations := relation.DatesLocations }
      | none =>
          { Artist := artist, LocationsList := [], DatesList := [],
            DatesLocations := [] }),
    ?_, by simp, ?_,
    getAllArtistsComplete_fetchCalls env now c artists rels ha hr⟩
  · rw [heq]
  · intro i hi hi'
    rw [get_map_aux _ _ _ hi hi']
    cases hlm : lastMatch rels.Index ((artists.get ⟨i, hi'⟩).ID) with
    | some r =>
        rcases lastMatch_mem _ _ _ hlm with ⟨hm, hid⟩
        exact ⟨rfl, Or.inl ⟨r, hm, hid, rfl⟩⟩
    | none =>
        exact ⟨rfl, Or.inr ⟨lastMatch_none _ _ hlm, rfl⟩⟩

/-- C1 witness: the spec's §8 example, artist index Queen and SOJA,
relation index holding only the Queen relation. -/
theorem getAllArtistsComplete_per_artist_join_witness :
    ∃ l, (GetAllArtistsComplete envDemo 0 NewAPIClient).1 = Except.ok l ∧
      l.length = [artistQueen, artistSOJA].length ∧
      (∀ i (hi : i < l.length) (hi' : i < [artistQueen, artistSOJA].length),
        (l.get ⟨i, hi⟩).Artist = [artistQueen, artistSOJA].get ⟨i, hi'⟩ ∧
        ((∃ r ∈ [relQueen], r.ID = ([artistQueen, artistSOJA].get ⟨i, hi'⟩).ID ∧
            (l.get ⟨i, hi⟩).DatesLocations = r.DatesLocations) ∨
         ((∀ r ∈ [relQueen], r.ID ≠ ([artistQueen, artistSOJA].get ⟨i, hi'⟩).ID) ∧
            (l.get ⟨i, hi⟩).DatesLocations = []))) ∧
      (GetAllArtistsComplete envDemo 0 NewAPIClient).2.2.filter Event.isFetchCall =
        [Event.fetchCall ArtistsEndpoint, Event.fetchCall RelationEndpoint] :=
  getAllArtistsComplete_per_artist_join envDemo 0 NewAPIClient
    [artistQueen, artistSOJA] { Index := [relQueen] } rfl rfl

/-- C10: when both index fetches succeed and the relation index holds
several relations with the same id, each artist receives the
DatesLocations of the LAST matching relation in index order (last
occurrence wins in the temporary id-to-Relation map), and the empty
mapping when none matches. -/
theorem duplicate_relation_ids_last_wins
    (env : Env) (now : Nat) (c : APIClient)
    (artists : List Artist) (rels : RelationIndex)
    (ha : (GetArtists env now c).1 = Except.ok artists)
    (hr : (GetRelations env now (GetArtists env now c).2.1).1 = Except.ok rels) :
    ∃ l, (GetAllArtistsComplete env now c).1 = Except.ok l ∧
      l.length = artists.length ∧
      ∀ i (hi : i < l.length) (hi' : i < artists.length),
        (l.get ⟨i, hi⟩).DatesLocations =
          (match rels.Index.reverse.find?
              (fun r => decide (r.ID = (artists.get ⟨i, hi'⟩).ID)) with
           | some r => r.DatesLocations
           | none => []) := by
  have heq := getAllArtistsComplete_eq env now c artists rels ha hr
  refine ⟨artists.map (fun artist =>
      match lastMatch rels.Index artist.ID with
      | some relation =>
          { Artist := artist, LocationsList := [], DatesList := [],
            DatesLocations := relation.DatesLocations }
      | none =>
          { Artist := artist, LocationsList := [], DatesList := [],
            DatesLocations := [] }),
    ?_, by simp, ?_⟩
  · rw [heq]
  · intro i hi hi'
    rw [get_map_aux _ _ _ hi hi']
    rw [← lastMatch_eq_find_rev]
    cases lastMatch rels.Index ((artists.get ⟨i, hi'⟩).ID) <;> rfl

/-- C10 witness: a relation index holding two relations with id 1; the
lone artist with id 1 must receive the second relation's mapping. -/
theorem duplicate_relation_ids_last_wins_witness :
    ∃ l, (GetAllArtistsComplete envDup 0 NewAPIClient).1 = Except.ok l ∧
      l.length = [artistQueen].length ∧
      ∀ i (hi : i < l.length) (hi' : i < [artistQueen].length),
        (l.get ⟨i, hi⟩).DatesLocations =
          (match [relDupA, relDupB].reverse.find?
              (fun r => decide (r.ID = ([artistQueen].get ⟨i, hi'⟩).ID)) with
           | some r => r.DatesLocations
           | none => []) :=
  duplicate_relation_ids_last_wins envDup 0 NewAPIClient
    [artistQueen] { Index := [relDupA, relDupB] } rfl rfl

/-- C2: when the base artist fetch succeeds but no Relation with the id
exists — the per-id relation fetch fails, and the relation index contains
no relation with that id — GetArtistComplete succeeds and carries an
empty date-location mapping, and GetAllArtistsComplete succeeds and gives
every artist with that id an empty date-location mapping. -/
theorem no_matching_relation_degrades_to_empty
    (env : Env) (now : Nat) (c : APIClient) (id : Int) (artist : Artist)
    (artists : List Artist) (rels : RelationIndex)
    (hbase : (GetArtistByID env now c id).1 = Except.ok artist)
    (hrel : ∃ e, (GetRelationByArtistID env now (afterDates env now c id) id).1 =
        Except.error e)
    (ha : (GetArtists env now c).1 = Except.ok artists)
    (hr : (GetRelations env now (GetArtists env now c).2.1).1 = Except.ok rels)
    (hnone : ∀ r ∈ rels.Index, r.ID ≠ id) :
    (∃ ac, (GetArtistComplete env now c id).1 = Except.ok ac ∧
       ac.DatesLocations = []) ∧
    (∃ l, (GetAllArtistsComplete env now c).1 = Except.ok l ∧
       ∀ i (hi : i < l.length) (hi' : i < artists.length),
         (artists.get ⟨i, hi'⟩).ID = id →
         (l.get ⟨i, hi⟩).DatesLocations = []) := by
  constructor
  · rcases hrel with ⟨e, he⟩
    refine ⟨_, getArtistComplete_eq env now c id artist hbase, ?_⟩
    rw [he]
  · have heq := getAllArtistsComplete_eq env now c artists rels ha hr
    refine ⟨artists.map (fun artist =>
        match lastMatch rels.Index artist.ID with
        | some relation =>
            { Artist := artist, LocationsList := [], DatesList := [],
              DatesLocations := relation.DatesLocations }
        | none =>
            { Artist := artist, LocationsList := [], DatesList := [],
              DatesLocations := [] }),
      ?_, ?_⟩
    · rw [heq]
    · intro i hi hi' hid
      rw [get_map_aux _ _ _ hi hi']
      cases hlm : lastMatch rels.Index ((artists.get ⟨i, hi'⟩).ID) with
      | some r =>
          rcases lastMatch_mem _ _ _ hlm with ⟨hm, hrid⟩
          exact absurd (hrid.trans hid) (hnone r hm)
      | none => rfl

/-- C2 witness: artist 2 (SOJA) exists, the per-id relation endpoint for
id 2 answers 404, and the relation index holds only the id-1 relation. -/
theorem no_matching_relation_degrades_to_empty_witness :
    (∃ ac, (GetArtistComplete envNoRel 0 NewAPIClient 2).1 = Except.ok ac ∧
       ac.DatesLocations = []) ∧
    (∃ l, (GetAllArtistsComplete envNoRel 0 NewAPIClient).1 = Except.ok l ∧
       ∀ i (hi : i < l.length) (hi' : i < [artistQueen, artistSOJA].length),
         ([artistQueen, artistSOJA].get ⟨i, hi'⟩).ID = 2 →
         (l.get ⟨i, hi⟩).DatesLocations = []) :=
  no_matching_relation_degrades_to_empty envNoRel 0 NewAPIClient 2 artistSOJA
    [artistQueen, artistSOJA] { Index := [relQueen] } rfl
    ⟨GetError.fetch (FetchError.statusError 404), rfl⟩ rfl rfl (by decide)

/-- C3: after a successful fetchURL of a URL, a second fetchURL of the
same URL performed while the stored entry is younger than the TTL issues
no network request — whatever the network would answer — and returns
bytes identical to those of the first call, leaving the state unchanged. -/
theorem fetchURL_cache_hit_within_ttl
    (net1 net2 : String → Nat → NetResult) (now1 now2 : Nat) (c : APIClient)
    (url : String) (b : Bytes) (entry : CacheEntry)
    (h1 : (fetchURL net1 now1 c url).1 = Except.ok b)
    (he : mapLookup (fetchURL net1 now1 c url).2.1.cache url = some entry)
    (hfresh : now2 - entry.timestamp < (fetchURL net1 now1 c url).2.1.cacheTTL) :
    fetchURL net2 now2 (fetchURL net1 now1 c url).2.1 url =
      (Except.ok b, (fetchURL net1 now1 c url).2.1, [Event.fetchCall url]) := by
  rcases fetchURL_ok_lookup net1 now1 c url b h1 with ⟨e2, he2, hdata⟩
  rw [he] at he2
  injection he2 with he3
  subst he3
  rw [fetchURL_hit net2 now2 ((fetchURL net1 now1 c url).2.1) url entry he hfresh,
    hdata]

/-- C3 witness: a first fetch at instant 0 against a working network,
then a second fetch at instant 1 against a network that would fail —
still served from the cache with the first call's bytes. -/
theorem fetchURL_cache_hit_within_ttl_witness :
    fetchURL netErr 1 (fetchURL netOK 0 NewAPIClient ArtistsEndpoint).2.1
        ArtistsEndpoint =
      (Except.ok [0], (fetchURL netOK 0 NewAPIClient ArtistsEndpoint).2.1,
       [Event.fetchCall ArtistsEndpoint]) :=
  fetchURL_cache_hit_within_ttl netOK netErr 0 1 NewAPIClient ArtistsEndpoint [0]
    { data := [0], timestamp := 0 } rfl rfl (by decide)

/-- C4: when the cached entry for a URL has aged at least the TTL, the
call behaves exactly as the network path — the expired entry is never
served — and a network request is issued. -/
theorem fetchURL_expired_entry_refetches
    (net : String → Nat → NetResult) (now : Nat) (c : APIClient) (url : String)
    (entry : CacheEntry)
    (hl : mapLookup c.cache url = some entry)
    (hexp : c.cacheTTL ≤ now - entry.timestamp) :
    fetchURL net now c url = fetchNetwork net now c url ∧
    Event.netRequest url ∈ (fetchURL net now c url).2.2 := by
  have h := fetchURL_expired net now c url entry hl (Nat.not_lt.mpr hexp)
  refine ⟨h, ?_⟩
  rw [h, fetchNetwork_trace]
  simp

/-- C4 witness: an entry stored at instant 0 with TTL 300, fetched again
at instant 1000. -/
theorem fetchURL_expired_entry_refetches_witness :
    fetchURL netOK 1000 clientStale ArtistsEndpoint =
      fetchNetwork netOK 1000 clientStale ArtistsEndpoint ∧
    Event.netRequest ArtistsEndpoint ∈
      (fetchURL netOK 1000 clientStale ArtistsEndpoint).2.2 :=
  fetchURL_expired_entry_refetches netOK 1000 clientStale ArtistsEndpoint
    { data := [7], timestamp := 0 } rfl (by decide)

/-- C5 counterexample: on a cache-hit success the entry is NOT overwritten
with the current timestamp — fetchURL at instant 1 on a client whose "u"
entry was stored at instant 0 succeeds with the cached bytes, yet the
cache differs from the claimed insert of a timestamp-1 entry. -/
theorem fetchURL_hit_success_not_reinserted :
    (fetchURL netErr 1 clientHit "u").1 = Except.ok [7] ∧
    (fetchURL netErr 1 clientHit "u").2.1.cache ≠
      mapInsert clientHit.cache "u" { data := [7], timestamp := 1 } := by
  constructor
  · rfl
  · decide

/-- C5 amended: on any failure fetchURL leaves the client untouched; on a
success that issued a network request, exactly the entry for the URL is
inserted or overwritten with the new body and the current instant; on a
cache-hit success (no network request) the client is untouched as well. -/
theorem fetchURL_cache_mutation_on_network_success_only
    (net : String → Nat → NetResult) (now : Nat) (c : APIClient) (url : String) :
    (∀ e, (fetchURL net now c url).1 = Except.error e →
       (fetchURL net now c url).2.1 = c) ∧
    (∀ b, (fetchURL net now c url).1 = Except.ok b →
       Event.netRequest url ∈ (fetchURL net now c url).2.2 →
       (fetchURL net now c url).2.1.cache =
         mapInsert c.cache url { data := b, timestamp := now }) ∧
    (∀ b, (fetchURL net now c url).1 = Except.ok b →
       Event.netRequest url ∉ (fetchURL net now c url).2.2 →
       (fetchURL net now c url).2.1 = c) := by
  rcases fetchURL_cases net now c url with ⟨entry, hl, hf, heq⟩ | heq
  · refine ⟨?_, ?_, ?_⟩
    · intro e he
      rw [heq] at he
      simp at he
    · intro b hb hmem
      rw [heq] at hmem
      simp at hmem
    · intro b hb hmem
      rw [heq]
  · rw [heq]
    refine ⟨?_, ?_, ?_⟩
    · intro e he
      exact fetchNetwork_error_state net now c url e he
    · intro b hb hmem
      exact fetchNetwork_ok net now c url b hb
    · intro b hb hmem
      rw [fetchNetwork_trace] at hmem
      simp at hmem

/-- C5 amended witness: a transport failure leaves the fresh client
untouched. -/
theorem fetchURL_cache_mutation_on_network_success_only_witness :
    (fetchURL netErr 0 NewAPIClient "u").2.1 = NewAPIClient :=
  (fetchURL_cache_mutation_on_network_success_only netErr 0 NewAPIClient "u").1
    FetchError.httpError rfl

/-- C6: GetArtistComplete fails exactly when the base artist fetch fails,
with the very same error; when the base fetch succeeds, the result is the
record whose three enrichment fields each come from their own sub-fetch
when it succeeds and stay empty when it fails — so an enrichment failure
never fails the operation and only leaves its own field unset. -/
theorem getArtistComplete_fails_iff_base_fails
    (env : Env) (now : Nat) (c : APIClient) (id : Int) :
    (∀ e, (GetArtistComplete env now c id).1 = Except.error e ↔
       (GetArtistByID env now c id).1 = Except.error e) ∧
    (∀ artist, (GetArtistByID env now c id).1 = Except.ok artist →
       (GetArtistComplete env now c id).1 = Except.ok
         { Artist := artist,
           LocationsList :=
             (match (GetLocationsByArtistID env now (afterBase env now c id) id).1 with
              | Except.ok locations => locations.Locations
              | Except.error _ => []),
           DatesList :=
             (match (GetDatesByArtistID env now (afterLocations env now c id) id).1 with
              | Except.ok dates => dates.Dates
              | Except.error _ => []),
           DatesLocations :=
             (match (GetRelationByArtistID env now (afterDates env now c id) id).1 with
              | Except.ok relation => relation.DatesLocations
              | Except.error _ => []) }) := by
  constructor
  · intro e
    unfold GetArtistComplete
    cases hb : (GetArtistByID env now c id).1 with
    | error e2 => simp
    | ok artist => simp
  · intro artist hb
    exact getArtistComplete_eq env now c id artist hb

/-- C6 witness: with a dead network the base fetch's transport error is
exactly the error of GetArtistComplete. -/
theorem getArtistComplete_fails_iff_base_fails_witness :
    (GetArtistComplete envErr 0 NewAPIClient 1).1 =
      Except.error (GetError.fetch FetchError.httpError) :=
  ((getArtistComplete_fails_iff_base_fails envErr 0 NewAPIClient 1).1
    (GetError.fetch FetchError.httpError)).mpr rfl

/-- C7: ClearCache always leaves an empty cache, and any fetchURL right
after it records a network request (no entry survives the clear). -/
theorem clearCache_empties_and_forces_network
    (c : APIClient) (net : String → Nat → NetResult) (now : Nat) (url : String) :
    (ClearCache c).cache = [] ∧
    (fetchURL net now (ClearCache c) url).2.2 =
      [Event.fetchCall url, Event.netRequest url] := by
  constructor
  · rfl
  · show (fetchURL net now { c with cache := [] } url).2.2 = _
    unfold fetchURL
    simp [mapLookup, fetchNetwork_trace]

/-- C8: every failure of GetArtists is either the fetch error itself —
transport failure, non-success status or body-read failure, propagated
unchanged from the single fetch attempt — or a JSON decode error, which
is a constructor distinct from every fetch error; success happens exactly
when fetch and decode both succeed, the three spec failure classes cover
every error, and at most one network request is ever issued (no retry). -/
theorem retrieval_failure_taxonomy (env : Env) (now : Nat) (c : APIClient) :
    (∀ fe, (fetchURL env.net now c ArtistsEndpoint).1 = Except.error fe →
       (GetArtists env now c).1 = Except.error (GetError.fetch fe)) ∧
    (∀ b, (fetchURL env.net now c ArtistsEndpoint).1 = Except.ok b →
       env.decodeArtists b = none →
       (GetArtists env now c).1 = Except.error GetError.jsonError) ∧
    (∀ b artists, (fetchURL env.net now c ArtistsEndpoint).1 = Except.ok b →
       env.decodeArtists b = some artists →
       (GetArtists env now c).1 = Except.ok artists) ∧
    (∀ fe, GetError.fetch fe ≠ GetError.jsonError) ∧
    ((GetError.fetch FetchError.httpError).reason = FailureReason.transport ∧
     (GetError.fetch FetchError.readError).reason = FailureReason.transport ∧
     (∀ k, (GetError.fetch (FetchError.statusError k)).reason =
        FailureReason.badStatus) ∧
     GetError.jsonError.reason = FailureReason.malformed) ∧
    countNetRequests (GetArtists env now c).2.2 ≤ 1 := by
  refine ⟨?_, ?_, ?_, ?_, ⟨rfl, rfl, fun k => rfl, rfl⟩, ?_⟩
  · intro fe hfe
    unfold GetArtists
    rw [hfe]
  · intro b hb hd
    unfold GetArtists
    rw [hb]
    simp only []
    rw [hd]
  · intro b artists hb hd
    unfold GetArtists
    rw [hb]
    simp only []
    rw [hd]
  · intro fe h
    cases h
  · rw [GetArtists_trace]
    exact fetchURL_netcount env.net now c ArtistsEndpoint

/-- C8 witness: against a dead network, GetArtists reports the transport
error of its single fetch attempt. -/
theorem retrieval_failure_taxonomy_witness :
    (GetArtists envErr 0 NewAPIClient).1 =
      Except.error (GetError.fetch FetchError.httpError) :=
  (retrieval_failure_taxonomy envErr 0 NewAPIClient).1 FetchError.httpError rfl

/-- C9: every element of a successful GetAllArtistsComplete result has
empty LocationsList and DatesList — the bulk lookup only ever attaches
DatesLocations — whereas GetArtistComplete can populate all three
enrichment fields, witnessed by the demo environment. -/
theorem bulk_vs_single_enrichment_shapes :
    (∀ (env : Env) (now : Nat) (c : APIClient) (l : List ArtistComplete),
       (GetAllArtistsComplete env now c).1 = Except.ok l →
       ∀ ac ∈ l, ac.LocationsList = [] ∧ ac.DatesList = []) ∧
    (∃ ac, (GetArtistComplete envDemo 0 NewAPIClient 1).1 = Except.ok ac ∧
       ac.LocationsList ≠ [] ∧ ac.DatesList ≠ [] ∧ ac.DatesLocations ≠ []) := by
  constructor
  · intro env now c l hl ac hmem
    cases ha : (GetArtists env now c).1 with
    | error e =>
        unfold GetAllArtistsComplete at hl
        rw [ha] at hl
        simp at hl
    | ok artists =>
        cases hr : (GetRelations env now (GetArtists env now c).2.1).1 with
        | error e =>
            unfold GetAllArtistsComplete at hl
            rw [ha] at hl
            simp only [] at hl
            rw [hr] at hl
            simp at hl
        | ok rels =>
            rw [getAllArtistsComplete_eq env now c artists rels ha hr] at hl
            simp only [] at hl
            injection hl with hl2
            subst hl2
            rcases List.mem_map.mp hmem with ⟨a, _, hfa⟩
            rw [← hfa]
            cases lastMatch rels.Index a.ID <;> exact ⟨rfl, rfl⟩
  · refine ⟨ArtistComplete.mk artistQueen ["london"] ["2020-01-01"]
        [("london", ["2020-01-01"])], rfl, ?_, ?_, ?_⟩ <;> decide

/-- C9 witness: the demo environment's bulk result, whose two elements
both carry empty LocationsList and DatesList. -/
theorem bulk_vs_single_enrichment_shapes_witness :
    ∀ ac ∈ [ArtistComplete.mk artistQueen [] [] [("london", ["2020-01-01"])],
            ArtistComplete.mk artistSOJA [] [] []],
      ArtistComplete.LocationsList ac = [] ∧ ArtistComplete.DatesList ac = [] :=
  bulk_vs_single_enrichment_shapes.1 envDemo 0 NewAPIClient _ rfl

end GroupieTracker
